import Mathlib

/-!
# Verification of the exam-generator paper assembly algorithm

Shallow embedding of `src/server/services/paperGenerator.ts` (class
`PaperGeneratorService`) together with the parts of `src/shared/schema.ts`
it consumes.  JavaScript numbers holding integral values are modelled as
`Nat`/`Int`; the question pool normally obtained from `storage.getAllQuestions()`
is passed as an explicit list parameter.
-/

/-- A stored question, with the fields `paperGenerator.ts` reads
(`schema.ts`, `IQuestion`).  `id` models `_id.toString()`, `qtype` the
`type` field.  `confidence` is an integer score; the source's
`confidence || 0` null-guard is absorbed by making the field total. -/
structure Question where
  id : String
  question : String
  qtype : String
  difficulty : String
  tags : List String
  confidence : Int
  deriving DecidableEq

/-- Per-type sub-configuration `{count, marks, totalMarks}` from
`generatePaperSchema`.  `count` is declared nonnegative (`z.number().min(0)`),
so it is modelled as `Nat`. -/
structure TypeConfig where
  count : Nat
  marks : Int
  totalMarks : Int
  deriving DecidableEq

/-- The `questionTypes` object of the configuration. -/
structure QuestionTypesConfig where
  mcq : TypeConfig
  short : TypeConfig
  long : TypeConfig
  deriving DecidableEq

/-- The `difficultyDistribution` percentages (each `z.number().min(0).max(100)`). -/
structure DifficultyDistribution where
  easy : Nat
  medium : Nat
  hard : Nat
  deriving DecidableEq

/-- The `GeneratePaperInput` configuration object. -/
structure GeneratePaperInput where
  title : String
  subject : String
  totalMarks : Int
  duration : Int
  difficulty : String
  questionTypes : QuestionTypesConfig
  topics : List String
  difficultyDistribution : DifficultyDistribution
  deriving DecidableEq

/-- JavaScript `s.includes(sub)`: `sub` occurs contiguously in `s`. -/
def strIncludes (s sub : String) : Bool :=
  (List.range (s.data.length + 1)).any fun i => sub.data.isPrefixOf (s.data.drop i)

/-- JavaScript `s.toLowerCase()`, character by character. -/
def strToLower (s : String) : String := ⟨s.data.map Char.toLower⟩

/-- The per-(tag, topic) test inside `filterQuestionsByTopics`:
`tag.toLowerCase().includes(topic.toLowerCase()) ||
 topic.toLowerCase().includes(tag.toLowerCase())`. -/
def topicMatchesTag (tag topic : String) : Bool :=
  strIncludes (strToLower tag) (strToLower topic) ||
  strIncludes (strToLower topic) (strToLower tag)

/-- `filterQuestionsByTopics` (paperGenerator.ts lines 109-121). -/
def filterQuestionsByTopics (questions : List Question) (topics : List String) :
    List Question :=
  if topics.isEmpty then questions
  else questions.filter fun q =>
    topics.any fun topic => q.tags.any fun tag => topicMatchesTag tag topic

/-- `calculatedTotal` in `validateConfiguration`: the sum of the three
per-type `totalMarks`. -/
def typeMarksTotal (cfg : GeneratePaperInput) : Int :=
  cfg.questionTypes.mcq.totalMarks + cfg.questionTypes.short.totalMarks +
    cfg.questionTypes.long.totalMarks

/-- `difficultyTotal` in `validateConfiguration`: the sum of the three
difficulty percentages. -/
def difficultyTotal (cfg : GeneratePaperInput) : Nat :=
  cfg.difficultyDistribution.easy + cfg.difficultyDistribution.medium +
    cfg.difficultyDistribution.hard

/-- The two structured validation failures of `validateConfiguration`,
carrying the data interpolated into the source's error messages. -/
inductive ValidationError where
  | marksMismatch (calculated expected : Int)
  | difficultyMismatch (total : Nat)
  deriving DecidableEq

/-- `validateConfiguration` (paperGenerator.ts lines 81-107): marks check
first, then percentage check. -/
def validateConfiguration (cfg : GeneratePaperInput) : Option ValidationError :=
  if typeMarksTotal cfg ≠ cfg.totalMarks then
    some (.marksMismatch (typeMarksTotal cfg) cfg.totalMarks)
  else if difficultyTotal cfg ≠ 100 then
    some (.difficultyMismatch (difficultyTotal cfg))
  else none

/-- The bucket `groupQuestionsByTypeAndDifficulty(questions)[t][d]`:
questions of type `t` and difficulty `d`, in pool order (the imperative
grouping pushes in traversal order). -/
def questionsOfTypeAndDifficulty (questions : List Question) (t d : String) :
    List Question :=
  questions.filter fun q => q.qtype == t && q.difficulty == d

/-- JavaScript `Math.round(n / 100)` for a nonnegative integer `n`:
round half toward positive infinity. -/
def jsRound100 (n : Nat) : Nat := (n + 50) / 100

/-- `easyCount = Math.round((totalNeeded * difficultyDistribution.easy) / 100)`. -/
def easyCountFor (totalNeeded : Nat) (dist : DifficultyDistribution) : Nat :=
  jsRound100 (totalNeeded * dist.easy)

/-- `mediumCount = Math.round((totalNeeded * difficultyDistribution.medium) / 100)`. -/
def mediumCountFor (totalNeeded : Nat) (dist : DifficultyDistribution) : Nat :=
  jsRound100 (totalNeeded * dist.medium)

/-- `hardCount = totalNeeded - easyCount - mediumCount`.  This is a plain
JavaScript subtraction and can be negative, so it is an `Int`. -/
def hardCountFor (totalNeeded : Nat) (dist : DifficultyDistribution) : Int :=
  (totalNeeded : Int) - easyCountFor totalNeeded dist - mediumCountFor totalNeeded dist

/-- JavaScript `arr.slice(0, c)` for an integer `c`: a negative end index
counts from the end of the array (`max(length + c, 0)`). -/
def jsSlice (l : List α) (c : Int) : List α :=
  l.take (if 0 ≤ c then c.toNat else ((l.length : Int) + c).toNat)

/-- One step of the insertion sort modelling the stable JavaScript
`sort((a, b) => (b.confidence || 0) - (a.confidence || 0))`:
insert `q` before the first element whose confidence is not above `q`'s. -/
def confidenceDescInsert (q : Question) : List Question → List Question
  | [] => [q]
  | x :: xs =>
    if x.confidence ≤ q.confidence then q :: x :: xs
    else x :: confidenceDescInsert q xs

/-- Stable sort by descending confidence. -/
def sortByConfidenceDesc (l : List Question) : List Question :=
  l.foldr confidenceDescInsert []

/-- `availableQuestions` for one difficulty bucket (paperGenerator.ts lines
208-210): drop already-used ids, then sort by descending confidence. -/
def availableFor (bucket : List Question) (usedQuestionIds : List String) :
    List Question :=
  sortByConfidenceDesc (bucket.filter fun q => !usedQuestionIds.contains q.id)

/-- The body of the per-difficulty loop in `selectQuestionsForType`
(lines 205-214): skip when the target count is zero (`continue`),
otherwise `availableQuestions.slice(0, count)`. -/
def bucketPick (bucket : List Question) (usedQuestionIds : List String) (c : Int) :
    List Question :=
  if c = 0 then [] else jsSlice (availableFor bucket usedQuestionIds) c

/-- `selectQuestionsForType` (lines 184-217): the easy, medium and hard
picks pushed in that order. -/
def selectQuestionsForType (buckets : String → List Question)
    (typeConfig : TypeConfig) (dist : DifficultyDistribution)
    (usedQuestionIds : List String) : List Question :=
  bucketPick (buckets "easy") usedQuestionIds (easyCountFor typeConfig.count dist) ++
  bucketPick (buckets "medium") usedQuestionIds (mediumCountFor typeConfig.count dist) ++
  bucketPick (buckets "hard") usedQuestionIds (hardCountFor typeConfig.count dist)

/-- A selected question as pushed by `selectQuestions`: the question spread
together with its `section` label and configured per-question marks. -/
structure SelectedQuestion where
  q : Question
  sectionLabel : String
  marks : Int
  deriving DecidableEq

/-- Annotating one type's selection with its section label and marks
(the `forEach` at lines 149-157). -/
def annotate (sel : List Question) (sectionLabel : String) (marks : Int) :
    List SelectedQuestion :=
  sel.map fun q => ⟨q, sectionLabel, marks⟩

/-- `questionsByTypeAndDifficulty[t] || {}` passed to `selectQuestionsForType`. -/
def bucketsOf (pool : List Question) (t : String) : String → List Question :=
  fun d => questionsOfTypeAndDifficulty pool t d

/-- One iteration of the type loop in `selectQuestions` (lines 137-158):
`if (typeConfig.count === 0) continue`, otherwise select for the type with
the current used-id set. -/
def selForType (pool : List Question) (t : String) (tc : TypeConfig)
    (dist : DifficultyDistribution) (used : List String) : List Question :=
  if tc.count = 0 then []
  else selectQuestionsForType (bucketsOf pool t) tc dist used

/-- The multiple-choice selection: first loop iteration, empty used set. -/
def mcqSelOf (pool : List Question) (cfg : GeneratePaperInput) : List Question :=
  selForType pool "multiple-choice" cfg.questionTypes.mcq cfg.difficultyDistribution []

/-- `usedQuestionIds` after the multiple-choice iteration. -/
def usedAfterMcq (pool : List Question) (cfg : GeneratePaperInput) : List String :=
  (mcqSelOf pool cfg).map (fun q => q.id)

/-- The short-answer selection: second loop iteration. -/
def shortSelOf (pool : List Question) (cfg : GeneratePaperInput) : List Question :=
  selForType pool "short-answer" cfg.questionTypes.short cfg.difficultyDistribution
    (usedAfterMcq pool cfg)

/-- `usedQuestionIds` after the short-answer iteration. -/
def usedAfterShort (pool : List Question) (cfg : GeneratePaperInput) : List String :=
  usedAfterMcq pool cfg ++ (shortSelOf pool cfg).map (fun q => q.id)

/-- The essay selection: third loop iteration. -/
def longSelOf (pool : List Question) (cfg : GeneratePaperInput) : List Question :=
  selForType pool "essay" cfg.questionTypes.long cfg.difficultyDistribution
    (usedAfterShort pool cfg)

/-- `selectQuestions` (lines 123-161): the loop over the literal array
`[mcq → 'MCQ', short → 'Short Answer', long → 'Long Answer']`, unrolled. -/
def selectQuestions (pool : List Question) (cfg : GeneratePaperInput) :
    List SelectedQuestion :=
  annotate (mcqSelOf pool cfg) "MCQ" cfg.questionTypes.mcq.marks ++
  annotate (shortSelOf pool cfg) "Short Answer" cfg.questionTypes.short.marks ++
  annotate (longSelOf pool cfg) "Long Answer" cfg.questionTypes.long.marks

/-- A paper entry as built by `createPaper` (lines 231-238). -/
structure PaperQuestion where
  questionId : String
  question : String
  qtype : String
  difficulty : String
  marks : Int
  sectionLabel : String
  deriving DecidableEq

/-- The persisted paper record (`createPaper`, lines 219-246); the
configuration snapshot is flattened to the fields the claims mention. -/
structure QuestionPaper where
  title : String
  subject : String
  totalMarks : Int
  duration : Int
  difficulty : String
  topics : List String
  questions : List PaperQuestion
  deriving DecidableEq

/-- The per-question mapping in `createPaper`.  `marks || 1` turns a zero
marks value into 1; `_id` and `section` are always present here, so their
`|| 'unknown'` / `|| 'General'` guards are identities. -/
def toPaperQuestion (s : SelectedQuestion) : PaperQuestion :=
  { questionId := s.q.id
    question := s.q.question
    qtype := s.q.qtype
    difficulty := s.q.difficulty
    marks := if s.marks = 0 then 1 else s.marks
    sectionLabel := s.sectionLabel }

/-- `createPaper` (lines 219-246), persistence effects dropped. -/
def createPaper (cfg : GeneratePaperInput) (selected : List SelectedQuestion) :
    QuestionPaper :=
  { title := cfg.title
    subject := cfg.subject
    totalMarks := cfg.totalMarks
    duration := cfg.duration
    difficulty := cfg.difficulty
    topics := cfg.topics
    questions := selected.map toPaperQuestion }

/-- The structured failure signals of `generatePaper`, one per distinct
error message in the source. -/
inductive GenError where
  | configMarksMismatch (calculated expected : Int)
  | configDifficultyMismatch (total : Nat)
  | emptyPool
  | noMatchingQuestions (topics : List String)
  | noQuestionsSelected
  deriving DecidableEq

/-- The `ConfigurationInvalid` family of the error taxonomy: the two
validation failures. -/
def GenError.isConfigurationInvalid : GenError → Bool
  | .configMarksMismatch _ _ => true
  | .configDifficultyMismatch _ => true
  | _ => false

/-- `generatePaper` (lines 18-79).  The question pool fetched from storage
is the explicit first argument; every failure path of the source returns a
structured result, modelled with `Except`. -/
def generatePaper (allQuestions : List Question) (cfg : GeneratePaperInput) :
    Except GenError QuestionPaper :=
  match validateConfiguration cfg with
  | some (.marksMismatch c e) => .error (.configMarksMismatch c e)
  | some (.difficultyMismatch t) => .error (.configDifficultyMismatch t)
  | none =>
    if allQuestions.isEmpty then .error .emptyPool
    else
      let filtered := filterQuestionsByTopics allQuestions cfg.topics
      if filtered.isEmpty then .error (.noMatchingQuestions cfg.topics)
      else
        let selected := selectQuestions filtered cfg
        if selected.isEmpty then .error .noQuestionsSelected
        else .ok (createPaper cfg selected)

/-- Whether a generation result is a `ConfigurationInvalid` failure. -/
def resultIsConfigInvalid : Except GenError QuestionPaper → Bool
  | .error e => e.isConfigurationInvalid
  | .ok _ => false

/-- Whether a generation result is a `NoMatchingQuestions` failure. -/
def resultIsNoMatching : Except GenError QuestionPaper → Bool
  | .error (.noMatchingQuestions _) => true
  | _ => false

/-- The number of questions in a successful result. -/
def resultQuestionCount : Except GenError QuestionPaper → Option Nat
  | .ok p => some p.questions.length
  | .error _ => none

/-- The three (mongoose type, sub-config) pairs iterated by
`selectQuestions`, in loop order. -/
def typeCfgList (cfg : GeneratePaperInput) : List (String × TypeConfig) :=
  [("multiple-choice", cfg.questionTypes.mcq),
   ("short-answer", cfg.questionTypes.short),
   ("essay", cfg.questionTypes.long)]

/-- Descending-confidence order between questions. -/
def confDescRel (a b : Question) : Prop := b.confidence ≤ a.confidence

/-! ## Concrete pools and configurations used as test vectors -/

/-- A sample question tagged `algebra`. -/
def mkQ (i t d : String) (conf : Int) : Question :=
  ⟨i, "text " ++ i, t, d, ["algebra"], conf⟩

/-- Pool with 1 easy, 1 medium and 3 hard multiple-choice questions. -/
def poolOver : List Question :=
  [mkQ "m1" "multiple-choice" "easy" 90,
   mkQ "m2" "multiple-choice" "medium" 80,
   mkQ "m3" "multiple-choice" "hard" 70,
   mkQ "m4" "multiple-choice" "hard" 60,
   mkQ "m5" "multiple-choice" "hard" 50]

/-- A valid configuration asking for a single multiple-choice question with
a 50/50/0 difficulty split. -/
def cfgOver : GeneratePaperInput :=
  { title := "T", subject := "S", totalMarks := 2, duration := 60,
    difficulty := "medium",
    questionTypes :=
      { mcq := { count := 1, marks := 2, totalMarks := 2 },
        short := { count := 0, marks := 1, totalMarks := 0 },
        long := { count := 0, marks := 1, totalMarks := 0 } },
    topics := ["algebra"],
    difficultyDistribution := { easy := 50, medium := 50, hard := 0 } }

/-- Pool with exactly 3 essay questions, all easy. -/
def pool3E : List Question :=
  [mkQ "e1" "essay" "easy" 90, mkQ "e2" "essay" "easy" 80,
   mkQ "e3" "essay" "easy" 70]

/-- A valid configuration requesting 5 long-answer questions with a
30/50/20 difficulty split. -/
def cfgL5 : GeneratePaperInput :=
  { title := "T", subject := "S", totalMarks := 10, duration := 60,
    difficulty := "medium",
    questionTypes :=
      { mcq := { count := 0, marks := 1, totalMarks := 0 },
        short := { count := 0, marks := 1, totalMarks := 0 },
        long := { count := 5, marks := 2, totalMarks := 10 } },
    topics := ["algebra"],
    difficultyDistribution := { easy := 30, medium := 50, hard := 20 } }

/-- `cfgL5` with an all-easy difficulty split. -/
def cfgL5E : GeneratePaperInput :=
  { cfgL5 with difficultyDistribution := { easy := 100, medium := 0, hard := 0 } }

/-- The paper produced for `pool3E` under `cfgL5E`. -/
def paper3E : QuestionPaper :=
  createPaper cfgL5E (selectQuestions (filterQuestionsByTopics pool3E cfgL5E.topics) cfgL5E)

/-- A pool that fully covers `cfgStd`: 2 easy mcq, 1 easy short-answer,
1 easy essay. -/
def poolStd : List Question :=
  [mkQ "q1" "multiple-choice" "easy" 90, mkQ "q2" "multiple-choice" "easy" 80,
   mkQ "q3" "short-answer" "easy" 70, mkQ "q4" "essay" "easy" 60]

/-- A valid all-easy configuration: 2 mcq, 1 short, 1 long. -/
def cfgStd : GeneratePaperInput :=
  { title := "Algebra paper", subject := "Math", totalMarks := 10, duration := 60,
    difficulty := "medium",
    questionTypes :=
      { mcq := { count := 2, marks := 1, totalMarks := 2 },
        short := { count := 1, marks := 2, totalMarks := 2 },
        long := { count := 1, marks := 6, totalMarks := 6 } },
    topics := ["algebra"],
    difficultyDistribution := { easy := 100, medium := 0, hard := 0 } }

/-- The paper produced for `poolStd` under `cfgStd`. -/
def paperStd : QuestionPaper :=
  createPaper cfgStd (selectQuestions (filterQuestionsByTopics poolStd cfgStd.topics) cfgStd)

/-- `cfgStd` with a mismatched overall `totalMarks`. -/
def cfgBadMarks : GeneratePaperInput := { cfgStd with totalMarks := 11 }

/-- `cfgStd` with difficulty percentages summing to 90. -/
def cfgBadDist : GeneratePaperInput :=
  { cfgStd with difficultyDistribution := { easy := 50, medium := 30, hard := 10 } }

/-- `cfgStd` asking for a topic no `poolStd` question is tagged with. -/
def cfgPhoto : GeneratePaperInput := { cfgStd with topics := ["Photosynthesis"] }

/-- `cfgPhoto` with mismatched marks as well. -/
def cfgPhotoBad : GeneratePaperInput := { cfgPhoto with totalMarks := 11 }

/-- `cfgStd` with the mcq category count set to zero. -/
def cfgNoMcq : GeneratePaperInput :=
  { cfgStd with
    totalMarks := 8,
    questionTypes :=
      { mcq := { count := 0, marks := 1, totalMarks := 0 },
        short := { count := 1, marks := 2, totalMarks := 2 },
        long := { count := 1, marks := 6, totalMarks := 6 } } }

/-! ## Sorting lemmas -/

theorem confidenceDescInsert_perm (q : Question) (l : List Question) :
    (confidenceDescInsert q l).Perm (q :: l) := by
  induction l with
  | nil => exact List.Perm.refl _
  | cons x xs ih =>
    by_cases h : x.confidence ≤ q.confidence
    · simp [confidenceDescInsert, h]
    · simp only [confidenceDescInsert, if_neg h]
      exact (ih.cons x).trans (List.Perm.swap q x xs)

theorem sortByConfidenceDesc_perm (l : List Question) :
    (sortByConfidenceDesc l).Perm l := by
  induction l with
  | nil => exact List.Perm.refl _
  | cons x xs ih =>
    have hstep : sortByConfidenceDesc (x :: xs) =
        confidenceDescInsert x (sortByConfidenceDesc xs) := rfl
    rw [hstep]
    exact (confidenceDescInsert_perm x _).trans (ih.cons x)

theorem mem_confidenceDescInsert {b q : Question} {l : List Question} :
    b ∈ confidenceDescInsert q l ↔ b = q ∨ b ∈ l := by
  rw [(confidenceDescInsert_perm q l).mem_iff, List.mem_cons]

theorem sorted_confidenceDescInsert {q : Question} {l : List Question}
    (h : List.Sorted confDescRel l) :
    List.Sorted confDescRel (confidenceDescInsert q l) := by
  induction l with
  | nil => simp [confidenceDescInsert, List.Sorted]
  | cons x xs ih =>
    rcases List.sorted_cons.mp h with ⟨hx, hxs⟩
    by_cases hc : x.confidence ≤ q.confidence
    · simp only [confidenceDescInsert, if_pos hc]
      refine List.sorted_cons.mpr ⟨?_, h⟩
      intro b hb
      rcases List.mem_cons.mp hb with rfl | hb
      · exact hc
      · exact le_trans (hx b hb) hc
    · simp only [confidenceDescInsert, if_neg hc]
      refine List.sorted_cons.mpr ⟨?_, ih hxs⟩
      intro b hb
      rcases mem_confidenceDescInsert.mp hb with rfl | hb
      · exact le_of_lt (lt_of_not_le hc)
      · exact hx b hb

theorem sorted_sortByConfidenceDesc (l : List Question) :
    List.Sorted confDescRel (sortByConfidenceDesc l) := by
  induction l with
  | nil => simp [sortByConfidenceDesc, List.Sorted]
  | cons x xs ih => exact sorted_confidenceDescInsert ih

theorem jsSlice_sublist (l : List Question) (c : Int) : (jsSlice l c).Sublist l :=
  List.take_sublist _ _

theorem sorted_bucketPick (bucket : List Question) (used : List String) (c : Int) :
    List.Sorted confDescRel (bucketPick bucket used c) := by
  unfold bucketPick
  split
  · simp [List.Sorted]
  · exact List.Pairwise.sublist (jsSlice_sublist _ _)
      (sorted_sortByConfidenceDesc _)

/-! ## Membership and counting lemmas -/

theorem mem_availableFor {x : Question} {bucket : List Question}
    {used : List String} (h : x ∈ availableFor bucket used) : x ∈ bucket := by
  have := (sortByConfidenceDesc_perm _).mem_iff.mp h
  exact (List.mem_filter.mp this).1

theorem count_availableFor_le (a : Question) (bucket : List Question)
    (used : List String) :
    List.count a (availableFor bucket used) ≤ List.count a bucket := by
  have h1 := (sortByConfidenceDesc_perm
    (bucket.filter fun q => !used.contains q.id)).count_eq a
  have h2 := (List.filter_sublist (l := bucket)
    (p := fun q => !used.contains q.id)).count_le a
  rw [availableFor, h1]
  exact h2

theorem mem_bucketPick {x : Question} {bucket : List Question}
    {used : List String} {c : Int} (h : x ∈ bucketPick bucket used c) :
    x ∈ bucket := by
  unfold bucketPick at h
  split at h
  · simp at h
  · exact mem_availableFor ((jsSlice_sublist _ _).mem h)

theorem count_bucketPick_le (a : Question) (bucket : List Question)
    (used : List String) (c : Int) :
    List.count a (bucketPick bucket used c) ≤ List.count a bucket := by
  unfold bucketPick
  split
  · simp
  · exact le_trans ((jsSlice_sublist _ _).count_le a) (count_availableFor_le a _ _)

theorem mem_questionsOfTypeAndDifficulty {x : Question} {pool : List Question}
    {t d : String} (h : x ∈ questionsOfTypeAndDifficulty pool t d) :
    x ∈ pool ∧ x.qtype = t ∧ x.difficulty = d := by
  rcases List.mem_filter.mp h with ⟨hmem, hp⟩
  simp only [Bool.and_eq_true, beq_iff_eq] at hp
  exact ⟨hmem, hp.1, hp.2⟩

theorem count_questionsOfTypeAndDifficulty_le (a : Question)
    (pool : List Question) (t d : String) :
    List.count a (questionsOfTypeAndDifficulty pool t d) ≤ List.count a pool :=
  (List.filter_sublist _).count_le a

/-! ## Structural lemmas about the selection pipeline -/

theorem annotate_map_q (l : List Question) (s : String) (m : Int) :
    (annotate l s m).map (fun x => x.q) = l := by
  induction l with
  | nil => rfl
  | cons x xs ih => simpa [annotate] using ih

theorem annotate_length (l : List Question) (s : String) (m : Int) :
    (annotate l s m).length = l.length := by
  simp [annotate]

theorem mem_annotate {x : SelectedQuestion} {l : List Question} {s : String}
    {m : Int} (h : x ∈ annotate l s m) :
    x.q ∈ l ∧ x.sectionLabel = s ∧ x.marks = m := by
  rcases List.mem_map.mp h with ⟨q, hq, rfl⟩
  exact ⟨hq, rfl, rfl⟩

theorem mem_selForType {x : Question} {pool : List Question} {t : String}
    {tc : TypeConfig} {dist : DifficultyDistribution} {used : List String}
    (h : x ∈ selForType pool t tc dist used) : x ∈ pool ∧ x.qtype = t := by
  unfold selForType at h
  split at h
  · simp at h
  · unfold selectQuestionsForType bucketsOf at h
    rcases List.mem_append.mp h with h' | h'
    · rcases List.mem_append.mp h' with h'' | h''
      · rcases mem_questionsOfTypeAndDifficulty (mem_bucketPick h'') with ⟨h1, h2, _⟩
        exact ⟨h1, h2⟩
      · rcases mem_questionsOfTypeAndDifficulty (mem_bucketPick h'') with ⟨h1, h2, _⟩
        exact ⟨h1, h2⟩
    · rcases mem_questionsOfTypeAndDifficulty (mem_bucketPick h') with ⟨h1, h2, _⟩
      exact ⟨h1, h2⟩

theorem selectQuestions_length (pool : List Question) (cfg : GeneratePaperInput) :
    (selectQuestions pool cfg).length =
      (mcqSelOf pool cfg).length + (shortSelOf pool cfg).length +
        (longSelOf pool cfg).length := by
  simp [selectQuestions, annotate_length, Nat.add_assoc]

/-! ## Case analysis of `generatePaper` -/

theorem generatePaper_marks_err (pool : List Question) (cfg : GeneratePaperInput)
    (h : typeMarksTotal cfg ≠ cfg.totalMarks) :
    generatePaper pool cfg =
      .error (.configMarksMismatch (typeMarksTotal cfg) cfg.totalMarks) := by
  unfold generatePaper validateConfiguration
  rw [if_pos h]

theorem generatePaper_difficulty_err (pool : List Question)
    (cfg : GeneratePaperInput) (h1 : typeMarksTotal cfg = cfg.totalMarks)
    (h2 : difficultyTotal cfg ≠ 100) :
    generatePaper pool cfg =
      .error (.configDifficultyMismatch (difficultyTotal cfg)) := by
  unfold generatePaper validateConfiguration
  rw [if_neg (by simp [h1]), if_pos h2]

theorem validateConfiguration_none {cfg : GeneratePaperInput}
    (h : validateConfiguration cfg = none) :
    typeMarksTotal cfg = cfg.totalMarks ∧ difficultyTotal cfg = 100 := by
  unfold validateConfiguration at h
  by_cases h1 : typeMarksTotal cfg ≠ cfg.totalMarks
  · rw [if_pos h1] at h; exact absurd h (by simp)
  · rw [if_neg h1] at h
    by_cases h2 : difficultyTotal cfg ≠ 100
    · rw [if_pos h2] at h; exact absurd h (by simp)
    · exact ⟨not_not.mp h1, not_not.mp h2⟩

theorem generatePaper_empty_pool (pool : List Question) (cfg : GeneratePaperInput)
    (hv : validateConfiguration cfg = none) (hp : pool = []) :
    generatePaper pool cfg = .error .emptyPool := by
  unfold generatePaper
  rw [hv, hp]
  rfl

theorem generatePaper_no_match (pool : List Question) (cfg : GeneratePaperInput)
    (hv : validateConfiguration cfg = none) (hp : pool ≠ [])
    (hf : filterQuestionsByTopics pool cfg.topics = []) :
    generatePaper pool cfg = .error (.noMatchingQuestions cfg.topics) := by
  unfold generatePaper
  rw [hv]
  simp only [List.isEmpty_iff]
  rw [if_neg hp, if_pos hf]

theorem generatePaper_none_selected (pool : List Question)
    (cfg : GeneratePaperInput) (hv : validateConfiguration cfg = none)
    (hp : pool ≠ []) (hf : filterQuestionsByTopics pool cfg.topics ≠ [])
    (hs : selectQuestions (filterQuestionsByTopics pool cfg.topics) cfg = []) :
    generatePaper pool cfg = .error .noQuestionsSelected := by
  unfold generatePaper
  rw [hv]
  simp only [List.isEmpty_iff]
  rw [if_neg hp, if_neg hf, if_pos hs]

theorem generatePaper_success (pool : List Question) (cfg : GeneratePaperInput)
    (hv : validateConfiguration cfg = none) (hp : pool ≠ [])
    (hf : filterQuestionsByTopics pool cfg.topics ≠ [])
    (hs : selectQuestions (filterQuestionsByTopics pool cfg.topics) cfg ≠ []) :
    generatePaper pool cfg =
      .ok (createPaper cfg
        (selectQuestions (filterQuestionsByTopics pool cfg.topics) cfg)) := by
  unfold generatePaper
  rw [hv]
  simp only [List.isEmpty_iff]
  rw [if_neg hp, if_neg hf, if_neg hs]

theorem generatePaper_ok {pool : List Question} {cfg : GeneratePaperInput}
    {p : QuestionPaper} (h : generatePaper pool cfg = .ok p) :
    validateConfiguration cfg = none ∧ pool ≠ [] ∧
      filterQuestionsByTopics pool cfg.topics ≠ [] ∧
      selectQuestions (filterQuestionsByTopics pool cfg.topics) cfg ≠ [] ∧
      p = createPaper cfg
        (selectQuestions (filterQuestionsByTopics pool cfg.topics) cfg) := by
  unfold generatePaper at h
  rcases hv : validateConfiguration cfg with _ | ve
  · rw [hv] at h
    simp only [List.isEmpty_iff] at h
    by_cases hp : pool = []
    · rw [if_pos hp] at h; exact absurd h (by simp)
    · rw [if_neg hp] at h
      by_cases hf : filterQuestionsByTopics pool cfg.topics = []
      · rw [if_pos hf] at h; exact absurd h (by simp)
      · rw [if_neg hf] at h
        by_cases hs : selectQuestions (filterQuestionsByTopics pool cfg.topics) cfg = []
        · rw [if_pos hs] at h; exact absurd h (by simp)
        · rw [if_neg hs] at h
          refine ⟨rfl, hp, hf, hs, ?_⟩
          cases h; rfl
  · rw [hv] at h
    cases ve <;> exact absurd h (by simp)

/-! ## Length lemmas for the selection counts -/

theorem length_availableFor_of_fresh {bucket : List Question} {used : List String}
    (h : ∀ q ∈ bucket, used.contains q.id = false) :
    (availableFor bucket used).length = bucket.length := by
  unfold availableFor
  rw [(sortByConfidenceDesc_perm _).length_eq]
  rw [List.filter_eq_self.mpr (fun a ha => by rw [h a ha]; rfl)]

theorem bucketPick_length_le {c : Int} (hc : 0 ≤ c) (bucket : List Question)
    (used : List String) : (bucketPick bucket used c).length ≤ c.toNat := by
  unfold bucketPick
  split
  · simp
  · unfold jsSlice
    rw [if_pos hc, List.length_take]
    exact min_le_left _ _

theorem bucketPick_length_eq {bucket : List Question} {used : List String}
    {c : Int} (hc : 0 ≤ c) (h : c.toNat ≤ (availableFor bucket used).length) :
    (bucketPick bucket used c).length = c.toNat := by
  unfold bucketPick
  split
  · simp only [List.length_nil]
    omega
  · unfold jsSlice
    rw [if_pos hc, List.length_take]
    omega

theorem hardCount_identity {tc : TypeConfig} {dist : DifficultyDistribution}
    (h : 0 ≤ hardCountFor tc.count dist) :
    easyCountFor tc.count dist + mediumCountFor tc.count dist +
      (hardCountFor tc.count dist).toNat = tc.count := by
  unfold hardCountFor at *
  omega

theorem selForType_length_le (pool : List Question) (t : String) (tc : TypeConfig)
    (dist : DifficultyDistribution) (used : List String)
    (hH : 0 ≤ hardCountFor tc.count dist) :
    (selForType pool t tc dist used).length ≤ tc.count := by
  unfold selForType
  split
  · simp
  · unfold selectQuestionsForType
    simp only [List.length_append]
    have hE := bucketPick_length_le (c := (easyCountFor tc.count dist : Int))
      (by positivity) (bucketsOf pool t "easy") used
    have hM := bucketPick_length_le (c := (mediumCountFor tc.count dist : Int))
      (by positivity) (bucketsOf pool t "medium") used
    have hHd := bucketPick_length_le hH (bucketsOf pool t "hard") used
    have hid := @hardCount_identity tc dist hH
    simp only [Int.toNat_natCast] at hE hM
    omega

theorem selForType_length_eq (pool : List Question) (t : String) (tc : TypeConfig)
    (dist : DifficultyDistribution) (used : List String)
    (hH : 0 ≤ hardCountFor tc.count dist)
    (hfresh : ∀ d, ∀ q ∈ questionsOfTypeAndDifficulty pool t d,
      used.contains q.id = false)
    (hE : easyCountFor tc.count dist ≤
      (questionsOfTypeAndDifficulty pool t "easy").length)
    (hM : mediumCountFor tc.count dist ≤
      (questionsOfTypeAndDifficulty pool t "medium").length)
    (hHsup : (hardCountFor tc.count dist).toNat ≤
      (questionsOfTypeAndDifficulty pool t "hard").length) :
    (selForType pool t tc dist used).length = tc.count := by
  unfold selForType
  split
  · simp only [List.length_nil]
    omega
  · unfold selectQuestionsForType
    simp only [List.length_append]
    have aE := @length_availableFor_of_fresh (bucketsOf pool t "easy") used
      (hfresh "easy")
    have aM := @length_availableFor_of_fresh (bucketsOf pool t "medium") used
      (hfresh "medium")
    have aH := @length_availableFor_of_fresh (bucketsOf pool t "hard") used
      (hfresh "hard")
    have lE := @bucketPick_length_eq (bucketsOf pool t "easy") used
      ((easyCountFor tc.count dist : Int)) (by positivity)
      (by rw [aE]; simpa [bucketsOf] using hE)
    have lM := @bucketPick_length_eq (bucketsOf pool t "medium") used
      ((mediumCountFor tc.count dist : Int)) (by positivity)
      (by rw [aM]; simpa [bucketsOf] using hM)
    have lH := @bucketPick_length_eq (bucketsOf pool t "hard") used
      (hardCountFor tc.count dist) hH
      (by rw [aH]; simpa [bucketsOf] using hHsup)
    have hid := @hardCount_identity tc dist hH
    simp only [Int.toNat_natCast] at lE lM
    omega

/-! ## Counting lemmas for global uniqueness -/

theorem count_selForType (a : Question) (pool : List Question) (t : String)
    (tc : TypeConfig) (dist : DifficultyDistribution) (used : List String) :
    List.count a (selForType pool t tc dist used) ≤ List.count a pool ∧
      (a.qtype ≠ t → List.count a (selForType pool t tc dist used) = 0) := by
  have key : ∀ d (c : Int), a.difficulty ≠ d ∨ a.qtype ≠ t →
      List.count a (bucketPick (bucketsOf pool t d) used c) = 0 := by
    intro d c hd
    refine Nat.le_zero.mp (le_trans (count_bucketPick_le a _ _ _) ?_)
    refine Nat.le_zero.mpr (List.count_eq_zero.mpr ?_)
    intro hmem
    rcases mem_questionsOfTypeAndDifficulty hmem with ⟨_, ht, hdd⟩
    rcases hd with hd | hd
    · exact hd hdd
    · exact hd ht
  have keyLe : ∀ d (c : Int),
      List.count a (bucketPick (bucketsOf pool t d) used c) ≤ List.count a pool :=
    fun d c => le_trans (count_bucketPick_le a _ _ _)
      (count_questionsOfTypeAndDifficulty_le a pool t d)
  unfold selForType
  split
  · simp
  · unfold selectQuestionsForType
    simp only [List.count_append]
    constructor
    · by_cases ht : a.qtype = t
      · by_cases h1 : a.difficulty = "easy"
        · have z2 := key "medium" (mediumCountFor tc.count dist) (Or.inl (by rw [h1]; decide))
          have z3 := key "hard" (hardCountFor tc.count dist) (Or.inl (by rw [h1]; decide))
          have := keyLe "easy" (easyCountFor tc.count dist)
          omega
        · by_cases h2 : a.difficulty = "medium"
          · have z1 := key "easy" (easyCountFor tc.count dist) (Or.inl (by rw [h2]; decide))
            have z3 := key "hard" (hardCountFor tc.count dist) (Or.inl (by rw [h2]; decide))
            have := keyLe "medium" (mediumCountFor tc.count dist)
            omega
          · by_cases h3 : a.difficulty = "hard"
            · have z1 := key "easy" (easyCountFor tc.count dist) (Or.inl (by rw [h3]; decide))
              have z2 := key "medium" (mediumCountFor tc.count dist) (Or.inl (by rw [h3]; decide))
              have := keyLe "hard" (hardCountFor tc.count dist)
              omega
            · have z1 := key "easy" (easyCountFor tc.count dist) (Or.inl h1)
              have z2 := key "medium" (mediumCountFor tc.count dist) (Or.inl h2)
              have z3 := key "hard" (hardCountFor tc.count dist) (Or.inl h3)
              omega
      · have z1 := key "easy" (easyCountFor tc.count dist) (Or.inr ht)
        have z2 := key "medium" (mediumCountFor tc.count dist) (Or.inr ht)
        have z3 := key "hard" (hardCountFor tc.count dist) (Or.inr ht)
        omega
    · intro ht
      have z1 := key "easy" (easyCountFor tc.count dist) (Or.inr ht)
      have z2 := key "medium" (mediumCountFor tc.count dist) (Or.inr ht)
      have z3 := key "hard" (hardCountFor tc.count dist) (Or.inr ht)
      omega

theorem count_selectQuestions_le (a : Question) (pool : List Question)
    (cfg : GeneratePaperInput) :
    List.count a ((selectQuestions pool cfg).map (fun s => s.q)) ≤
      List.count a pool := by
  have hmap : (selectQuestions pool cfg).map (fun s => s.q) =
      mcqSelOf pool cfg ++ shortSelOf pool cfg ++ longSelOf pool cfg := by
    simp [selectQuestions, List.map_append, annotate_map_q]
  rw [hmap]
  simp only [List.count_append]
  have h1 := count_selForType a pool "multiple-choice" cfg.questionTypes.mcq
    cfg.difficultyDistribution []
  have h2 := count_selForType a pool "short-answer" cfg.questionTypes.short
    cfg.difficultyDistribution (usedAfterMcq pool cfg)
  have h3 := count_selForType a pool "essay" cfg.questionTypes.long
    cfg.difficultyDistribution (usedAfterShort pool cfg)
  rw [show mcqSelOf pool cfg = selForType pool "multiple-choice"
    cfg.questionTypes.mcq cfg.difficultyDistribution [] from rfl]
  rw [show shortSelOf pool cfg = selForType pool "short-answer"
    cfg.questionTypes.short cfg.difficultyDistribution (usedAfterMcq pool cfg) from rfl]
  rw [show longSelOf pool cfg = selForType pool "essay"
    cfg.questionTypes.long cfg.difficultyDistribution (usedAfterShort pool cfg) from rfl]
  by_cases t1 : a.qtype = "multiple-choice"
  · have z2 := h2.2 (by rw [t1]; decide)
    have z3 := h3.2 (by rw [t1]; decide)
    have := h1.1
    omega
  · by_cases t2 : a.qtype = "short-answer"
    · have z1 := h1.2 (by rw [t2]; decide)
      have z3 := h3.2 (by rw [t2]; decide)
      have := h2.1
      omega
    · by_cases t3 : a.qtype = "essay"
      · have z1 := h1.2 (by rw [t3]; decide)
        have z2 := h2.2 (by rw [t3]; decide)
        have := h3.1
        omega
      · have z1 := h1.2 t1
        have z2 := h2.2 t2
        have z3 := h3.2 t3
        omega

theorem selectQuestions_subperm (pool : List Question) (cfg : GeneratePaperInput) :
    ((selectQuestions pool cfg).map (fun s => s.q)).Subperm pool :=
  List.subperm_ext_iff.mpr fun x _ =>
    le_trans (le_refl _) (count_selectQuestions_le x pool cfg)

theorem nodup_ids_of_subperm {l₁ l₂ : List Question} (h : l₁.Subperm l₂)
    (hN : (l₂.map (fun q => q.id)).Nodup) : (l₁.map (fun q => q.id)).Nodup := by
  obtain ⟨l, hperm, hsub⟩ := h
  have hN' : (l.map (fun q => q.id)).Nodup :=
    List.Nodup.sublist (hsub.map (fun q => q.id)) hN
  exact ((hperm.map (fun q => q.id)).nodup_iff).mp hN'

theorem filterQuestionsByTopics_sublist (pool : List Question)
    (topics : List String) : (filterQuestionsByTopics pool topics).Sublist pool := by
  unfold filterQuestionsByTopics
  split
  · exact List.Sublist.refl _
  · exact List.filter_sublist _

/-! ## Remaining helper lemmas -/

instance : DecidableEq (Except GenError QuestionPaper) := fun x y =>
  match x, y with
  | .ok a, .ok b =>
    if h : a = b then .isTrue (by rw [h])
    else .isFalse (by intro hc; cases hc; exact h rfl)
  | .error a, .error b =>
    if h : a = b then .isTrue (by rw [h])
    else .isFalse (by intro hc; cases hc; exact h rfl)
  | .ok _, .error _ => .isFalse (by intro hc; cases hc)
  | .error _, .ok _ => .isFalse (by intro hc; cases hc)

theorem mem_selectQuestions {x : SelectedQuestion} {pool : List Question}
    {cfg : GeneratePaperInput} (h : x ∈ selectQuestions pool cfg) :
    (x.q ∈ mcqSelOf pool cfg ∧ x.sectionLabel = "MCQ") ∨
    (x.q ∈ shortSelOf pool cfg ∧ x.sectionLabel = "Short Answer") ∨
    (x.q ∈ longSelOf pool cfg ∧ x.sectionLabel = "Long Answer") := by
  unfold selectQuestions at h
  rcases List.mem_append.mp h with h' | h'
  · rcases List.mem_append.mp h' with h'' | h''
    · rcases mem_annotate h'' with ⟨hq, hs, _⟩
      exact Or.inl ⟨hq, hs⟩
    · rcases mem_annotate h'' with ⟨hq, hs, _⟩
      exact Or.inr (Or.inl ⟨hq, hs⟩)
  · rcases mem_annotate h' with ⟨hq, hs, _⟩
    exact Or.inr (Or.inr ⟨hq, hs⟩)

theorem selForType_decomp (pool : List Question) (t : String) (tc : TypeConfig)
    (dist : DifficultyDistribution) (used : List String) :
    selForType pool t tc dist used =
      bucketPick (questionsOfTypeAndDifficulty pool t "easy") used
        (easyCountFor tc.count dist) ++
      bucketPick (questionsOfTypeAndDifficulty pool t "medium") used
        (mediumCountFor tc.count dist) ++
      bucketPick (questionsOfTypeAndDifficulty pool t "hard") used
        (hardCountFor tc.count dist) := by
  unfold selForType
  split
  · rename_i h0
    have he : easyCountFor tc.count dist = 0 := by
      unfold easyCountFor jsRound100
      rw [h0]
      simp
    have hm : mediumCountFor tc.count dist = 0 := by
      unfold mediumCountFor jsRound100
      rw [h0]
      simp
    have hh : hardCountFor tc.count dist = 0 := by
      unfold hardCountFor
      rw [he, hm, h0]
      simp
    rw [he, hm, hh]
    simp [bucketPick]
  · rfl

theorem id_not_in_sel_ids {f : List Question}
    (hN : (f.map (fun q => q.id)).Nodup) {sel : List Question} {t t' d : String}
    (hsel : ∀ r ∈ sel, r ∈ f ∧ r.qtype = t') (hne : t' ≠ t)
    {q : Question} (hq : q ∈ questionsOfTypeAndDifficulty f t d) :
    (sel.map (fun r => r.id)).contains q.id = false := by
  rcases mem_questionsOfTypeAndDifficulty hq with ⟨hqf, hqt, _⟩
  cases hb : (sel.map (fun r => r.id)).contains q.id
  · rfl
  · exfalso
    have hmem : q.id ∈ sel.map (fun r => r.id) := by simpa using hb
    rcases List.mem_map.mp hmem with ⟨r, hr, hrid⟩
    rcases hsel r hr with ⟨hrf, hrt⟩
    have hrq : r = q := List.inj_on_of_nodup_map hN hrf hqf hrid
    rw [hrq] at hrt
    exact hne (hrt.symm.trans hqt)

theorem contains_append_false {u1 u2 : List String} {x : String}
    (h1 : u1.contains x = false) (h2 : u2.contains x = false) :
    (u1 ++ u2).contains x = false := by
  cases hb : (u1 ++ u2).contains x
  · rfl
  · exfalso
    have hx : x ∈ u1 ++ u2 := by simpa using hb
    rcases List.mem_append.mp hx with h | h
    · have hc : u1.contains x = true := by simpa using h
      rw [hc] at h1
      simp at h1
    · have hc : u2.contains x = true := by simpa using h
      rw [hc] at h2
      simp at h2

/-! ## Claim theorems -/

/-- C3: for every per-type count and difficulty distribution, the
per-difficulty targets are `easyCount = round(total*easy/100)`,
`mediumCount = round(total*medium/100)`, and
`hardCount = total - easyCount - mediumCount`, so the three targets always
sum exactly to the per-type count. -/
theorem c3_difficulty_targets_sum (total : Nat) (dist : DifficultyDistribution) :
    easyCountFor total dist = jsRound100 (total * dist.easy) ∧
    mediumCountFor total dist = jsRound100 (total * dist.medium) ∧
    hardCountFor total dist =
      (total : Int) - easyCountFor total dist - mediumCountFor total dist ∧
    (easyCountFor total dist : Int) + (mediumCountFor total dist : Int) +
      hardCountFor total dist = (total : Int) := by
  refine ⟨rfl, rfl, rfl, ?_⟩
  unfold hardCountFor
  ring

/-- C6: whenever the sum of the per-type `totalMarks` differs from the
configured `totalMarks`, `generatePaper` fails with the marks-mismatch
`ConfigurationInvalid` signal and returns no paper, for every pool. -/
theorem c6_marks_mismatch_rejected (pool : List Question)
    (cfg : GeneratePaperInput) (h : typeMarksTotal cfg ≠ cfg.totalMarks) :
    generatePaper pool cfg =
      .error (.configMarksMismatch (typeMarksTotal cfg) cfg.totalMarks) ∧
    (GenError.configMarksMismatch (typeMarksTotal cfg)
      cfg.totalMarks).isConfigurationInvalid = true ∧
    resultQuestionCount (generatePaper pool cfg) = none := by
  have he := generatePaper_marks_err pool cfg h
  exact ⟨he, rfl, by rw [he]; rfl⟩

/-- C6 witness: a configuration whose per-type marks sum to 10 against a
declared total of 11 is rejected as ConfigurationInvalid. -/
theorem c6_witness :
    generatePaper poolStd cfgBadMarks =
      .error (.configMarksMismatch (typeMarksTotal cfgBadMarks)
        cfgBadMarks.totalMarks) ∧
    (GenError.configMarksMismatch (typeMarksTotal cfgBadMarks)
      cfgBadMarks.totalMarks).isConfigurationInvalid = true ∧
    resultQuestionCount (generatePaper poolStd cfgBadMarks) = none :=
  c6_marks_mismatch_rejected poolStd cfgBadMarks (by decide)

/-- C7: whenever the three difficulty percentages do not sum to 100,
`generatePaper` fails with a `ConfigurationInvalid` signal and returns no
paper, for every pool. -/
theorem c7_difficulty_mismatch_rejected (pool : List Question)
    (cfg : GeneratePaperInput) (h : difficultyTotal cfg ≠ 100) :
    resultIsConfigInvalid (generatePaper pool cfg) = true ∧
    resultQuestionCount (generatePaper pool cfg) = none := by
  by_cases hm : typeMarksTotal cfg = cfg.totalMarks
  · rw [generatePaper_difficulty_err pool cfg hm h]
    exact ⟨rfl, rfl⟩
  · rw [generatePaper_marks_err pool cfg hm]
    exact ⟨rfl, rfl⟩

/-- C7 witness: percentages 50/30/10 are rejected as ConfigurationInvalid. -/
theorem c7_witness :
    resultIsConfigInvalid (generatePaper poolStd cfgBadDist) = true ∧
    resultQuestionCount (generatePaper poolStd cfgBadDist) = none :=
  c7_difficulty_mismatch_rejected poolStd cfgBadDist (by decide)

/-- C9: `generatePaper` reports every failure as a structured result with a
distinct signal — marks mismatch, percentage mismatch, empty pool, empty
topic filter, empty selection — and otherwise returns the assembled paper;
being a total function of its inputs, no exception escapes. -/
theorem c9_structured_errors (pool : List Question) (cfg : GeneratePaperInput) :
    (typeMarksTotal cfg ≠ cfg.totalMarks →
      generatePaper pool cfg =
        .error (.configMarksMismatch (typeMarksTotal cfg) cfg.totalMarks)) ∧
    (typeMarksTotal cfg = cfg.totalMarks → difficultyTotal cfg ≠ 100 →
      generatePaper pool cfg =
        .error (.configDifficultyMismatch (difficultyTotal cfg))) ∧
    (validateConfiguration cfg = none → pool = [] →
      generatePaper pool cfg = .error .emptyPool) ∧
    (validateConfiguration cfg = none → pool ≠ [] →
      filterQuestionsByTopics pool cfg.topics = [] →
      generatePaper pool cfg = .error (.noMatchingQuestions cfg.topics)) ∧
    (validateConfiguration cfg = none → pool ≠ [] →
      filterQuestionsByTopics pool cfg.topics ≠ [] →
      selectQuestions (filterQuestionsByTopics pool cfg.topics) cfg = [] →
      generatePaper pool cfg = .error .noQuestionsSelected) ∧
    (validateConfiguration cfg = none → pool ≠ [] →
      filterQuestionsByTopics pool cfg.topics ≠ [] →
      selectQuestions (filterQuestionsByTopics pool cfg.topics) cfg ≠ [] →
      generatePaper pool cfg =
        .ok (createPaper cfg
          (selectQuestions (filterQuestionsByTopics pool cfg.topics) cfg))) :=
  ⟨generatePaper_marks_err pool cfg,
   generatePaper_difficulty_err pool cfg,
   generatePaper_empty_pool pool cfg,
   generatePaper_no_match pool cfg,
   generatePaper_none_selected pool cfg,
   generatePaper_success pool cfg⟩

/-- C9 witness: the empty pool is reported as the structured EmptyPool
signal. -/
theorem c9_witness : generatePaper [] cfgStd = .error .emptyPool :=
  (c9_structured_errors [] cfgStd).2.2.1 (by decide) rfl

/-- C5 counterexample: an invalid configuration (marks mismatch) with a
non-empty pool whose topic filter comes up empty fails with
ConfigurationInvalid — not with NoMatchingQuestions as the claim, which is
quantified over every configuration, requires. -/
theorem c5_counterexample :
    poolStd ≠ [] ∧
    filterQuestionsByTopics poolStd cfgPhotoBad.topics = [] ∧
    resultIsNoMatching (generatePaper poolStd cfgPhotoBad) = false ∧
    resultIsConfigInvalid (generatePaper poolStd cfgPhotoBad) = true := by
  refine ⟨by decide, by decide, by decide, by decide⟩

/-- C5 (amended): for every configuration that passes validation and every
non-empty pool, an empty topic-filter result makes `generatePaper` fail
with the NoMatchingQuestions signal and produce no paper. -/
theorem c5_no_matching_topics (pool : List Question) (cfg : GeneratePaperInput)
    (hv : validateConfiguration cfg = none) (hp : pool ≠ [])
    (hf : filterQuestionsByTopics pool cfg.topics = []) :
    generatePaper pool cfg = .error (.noMatchingQuestions cfg.topics) ∧
    resultQuestionCount (generatePaper pool cfg) = none := by
  have he := generatePaper_no_match pool cfg hv hp hf
  exact ⟨he, by rw [he]; rfl⟩

/-- C5 witness: requesting Photosynthesis against an algebra-tagged pool
fails with NoMatchingQuestions. -/
theorem c5_witness :
    generatePaper poolStd cfgPhoto = .error (.noMatchingQuestions cfgPhoto.topics) ∧
    resultQuestionCount (generatePaper poolStd cfgPhoto) = none :=
  c5_no_matching_topics poolStd cfgPhoto (by decide) (by decide) (by decide)

/-- C10: when a category's configured count is 0, that category is skipped
entirely — the selection for it is empty, no id is marked as used for it,
and no question in the assembled selection carries its section label —
regardless of what the pool offers. -/
theorem c10_zero_count_skips (pool : List Question) (cfg : GeneratePaperInput) :
    (cfg.questionTypes.mcq.count = 0 →
      mcqSelOf pool cfg = [] ∧ usedAfterMcq pool cfg = [] ∧
      (selectQuestions pool cfg).all
        (fun s => !(s.sectionLabel == "MCQ")) = true) ∧
    (cfg.questionTypes.short.count = 0 →
      shortSelOf pool cfg = [] ∧
      usedAfterShort pool cfg = usedAfterMcq pool cfg ∧
      (selectQuestions pool cfg).all
        (fun s => !(s.sectionLabel == "Short Answer")) = true) ∧
    (cfg.questionTypes.long.count = 0 →
      longSelOf pool cfg = [] ∧
      (selectQuestions pool cfg).all
        (fun s => !(s.sectionLabel == "Long Answer")) = true) := by
  refine ⟨fun h0 => ?_, fun h0 => ?_, fun h0 => ?_⟩
  · have hm : mcqSelOf pool cfg = [] := by
      unfold mcqSelOf selForType
      rw [if_pos h0]
    refine ⟨hm, by unfold usedAfterMcq; rw [hm]; rfl, ?_⟩
    rw [List.all_eq_true]
    intro s hs
    rcases mem_selectQuestions hs with ⟨hq, _⟩ | ⟨_, hlab⟩ | ⟨_, hlab⟩
    · rw [hm] at hq
      exact absurd hq (List.not_mem_nil _)
    · rw [hlab]
      decide
    · rw [hlab]
      decide
  · have hm : shortSelOf pool cfg = [] := by
      unfold shortSelOf selForType
      rw [if_pos h0]
    refine ⟨hm, by unfold usedAfterShort; rw [hm]; simp, ?_⟩
    rw [List.all_eq_true]
    intro s hs
    rcases mem_selectQuestions hs with ⟨_, hlab⟩ | ⟨hq, _⟩ | ⟨_, hlab⟩
    · rw [hlab]
      decide
    · rw [hm] at hq
      exact absurd hq (List.not_mem_nil _)
    · rw [hlab]
      decide
  · have hm : longSelOf pool cfg = [] := by
      unfold longSelOf selForType
      rw [if_pos h0]
    refine ⟨hm, ?_⟩
    rw [List.all_eq_true]
    intro s hs
    rcases mem_selectQuestions hs with ⟨_, hlab⟩ | ⟨_, hlab⟩ | ⟨hq, _⟩
    · rw [hlab]
      decide
    · rw [hlab]
      decide
    · rw [hm] at hq
      exact absurd hq (List.not_mem_nil _)

/-- C10 witness: with mcq.count = 0 over a pool that does contain matching
multiple-choice questions, nothing is selected or used for the MCQ
category. -/
theorem c10_witness :
    mcqSelOf poolStd cfgNoMcq = [] ∧ usedAfterMcq poolStd cfgNoMcq = [] ∧
    (selectQuestions poolStd cfgNoMcq).all
      (fun s => !(s.sectionLabel == "MCQ")) = true :=
  (c10_zero_count_skips poolStd cfgNoMcq).1 (by decide)

/-- C4: a successful paper is the concatenation of the mcq, short and long
selections in that order; each category's selection is its easy block, then
its medium block, then its hard block; and every block is sorted by
descending confidence. -/
theorem c4_paper_ordering (pool : List Question) (cfg : GeneratePaperInput)
    (p : QuestionPaper) (hok : generatePaper pool cfg = .ok p) :
    p.questions =
      (annotate (mcqSelOf (filterQuestionsByTopics pool cfg.topics) cfg)
        "MCQ" cfg.questionTypes.mcq.marks).map toPaperQuestion ++
      (annotate (shortSelOf (filterQuestionsByTopics pool cfg.topics) cfg)
        "Short Answer" cfg.questionTypes.short.marks).map toPaperQuestion ++
      (annotate (longSelOf (filterQuestionsByTopics pool cfg.topics) cfg)
        "Long Answer" cfg.questionTypes.long.marks).map toPaperQuestion ∧
    (∀ t tc used,
      selForType (filterQuestionsByTopics pool cfg.topics) t tc
          cfg.difficultyDistribution used =
        bucketPick (questionsOfTypeAndDifficulty
            (filterQuestionsByTopics pool cfg.topics) t "easy") used
          (easyCountFor tc.count cfg.difficultyDistribution) ++
        bucketPick (questionsOfTypeAndDifficulty
            (filterQuestionsByTopics pool cfg.topics) t "medium") used
          (mediumCountFor tc.count cfg.difficultyDistribution) ++
        bucketPick (questionsOfTypeAndDifficulty
            (filterQuestionsByTopics pool cfg.topics) t "hard") used
          (hardCountFor tc.count cfg.difficultyDistribution)) ∧
    (∀ bucket used c, List.Sorted confDescRel (bucketPick bucket used c)) := by
  obtain ⟨_, _, _, _, hp⟩ := generatePaper_ok hok
  subst hp
  refine ⟨?_, fun t tc used => selForType_decomp _ t tc _ used,
    fun bucket used c => sorted_bucketPick bucket used c⟩
  simp [createPaper, selectQuestions, List.map_append]

/-- C4 witness: the concrete paper for `poolStd`/`cfgStd` decomposes into
its annotated mcq, short and long blocks in order. -/
theorem c4_witness :
    paperStd.questions =
      (annotate (mcqSelOf (filterQuestionsByTopics poolStd cfgStd.topics) cfgStd)
        "MCQ" cfgStd.questionTypes.mcq.marks).map toPaperQuestion ++
      (annotate (shortSelOf (filterQuestionsByTopics poolStd cfgStd.topics) cfgStd)
        "Short Answer" cfgStd.questionTypes.short.marks).map toPaperQuestion ++
      (annotate (longSelOf (filterQuestionsByTopics poolStd cfgStd.topics) cfgStd)
        "Long Answer" cfgStd.questionTypes.long.marks).map toPaperQuestion :=
  (c4_paper_ordering poolStd cfgStd paperStd rfl).1

/-- C2: assuming the pool's ids are pairwise distinct (the database `_id`
invariant), no question id appears twice in the assembled paper, across all
categories and difficulty buckets. -/
theorem c2_no_duplicate_ids (pool : List Question) (cfg : GeneratePaperInput)
    (p : QuestionPaper) (hok : generatePaper pool cfg = .ok p)
    (hN : (pool.map (fun q => q.id)).Nodup) :
    (p.questions.map (fun q => q.questionId)).Nodup := by
  obtain ⟨_, _, _, _, hp⟩ := generatePaper_ok hok
  subst hp
  have hNf : ((filterQuestionsByTopics pool cfg.topics).map
      (fun q => q.id)).Nodup :=
    List.Nodup.sublist
      ((filterQuestionsByTopics_sublist pool cfg.topics).map (fun q => q.id)) hN
  have base := nodup_ids_of_subperm
    (selectQuestions_subperm (filterQuestionsByTopics pool cfg.topics) cfg) hNf
  simpa [createPaper, List.map_map, Function.comp, toPaperQuestion] using base

/-- C2 witness: the concrete paper for `poolStd`/`cfgStd` has pairwise
distinct question ids. -/
theorem c2_witness : (paperStd.questions.map (fun q => q.questionId)).Nodup :=
  c2_no_duplicate_ids poolStd cfgStd paperStd rfl (by decide)

/-- C8 counterexample: a valid configuration with long.count = 5 against a
pool holding exactly 3 essay questions (all easy) under a 30/50/20 split
succeeds but returns 2 long-answer questions, not the 3 the claim
promises: the easy bucket's rounded target (2) cuts the supply. -/
theorem c8_counterexample :
    validateConfiguration cfgL5 = none ∧
    cfgL5.questionTypes.long.count = 5 ∧
    (pool3E.filter (fun q => q.qtype == "essay")).length = 3 ∧
    pool3E.length = 3 ∧
    resultQuestionCount (generatePaper pool3E cfgL5) = some 2 := by
  refine ⟨by decide, by decide, by decide, by decide, by decide⟩

/-- C8 (amended): an under-supplied bucket is not an error — a bucket whose
(nonnegative) target is at least its available supply contributes exactly
its available questions, and `generatePaper` still succeeds whenever the
overall selection is non-empty; the long.count=5 / 3-essay example returns
exactly 3 questions when every difficulty bucket's target covers its
supply (all-easy pool with easy=100). -/
theorem c8_insufficient_supply (pool : List Question) (cfg : GeneratePaperInput) :
    (validateConfiguration cfg = none → pool ≠ [] →
      filterQuestionsByTopics pool cfg.topics ≠ [] →
      selectQuestions (filterQuestionsByTopics pool cfg.topics) cfg ≠ [] →
      generatePaper pool cfg =
        .ok (createPaper cfg
          (selectQuestions (filterQuestionsByTopics pool cfg.topics) cfg))) ∧
    (∀ bucket used (c : Int), 0 ≤ c →
      (availableFor bucket used).length ≤ c.toNat →
      bucketPick bucket used c = availableFor bucket used) ∧
    resultQuestionCount (generatePaper pool3E cfgL5E) = some 3 := by
  refine ⟨generatePaper_success pool cfg, ?_, by decide⟩
  intro bucket used c hc hlen
  unfold bucketPick
  split
  · rename_i h0
    rw [h0] at hlen
    simp only [Int.toNat_zero, Nat.le_zero] at hlen
    exact (List.eq_nil_of_length_eq_zero hlen).symm
  · unfold jsSlice
    rw [if_pos hc]
    exact List.take_of_length_le hlen

/-- C8 witness: 3 easy essays with long.count = 5 under easy=100 yield a
successful paper with exactly 3 long-answer questions. -/
theorem c8_witness :
    generatePaper pool3E cfgL5E =
      .ok (createPaper cfgL5E
        (selectQuestions (filterQuestionsByTopics pool3E cfgL5E.topics) cfgL5E)) ∧
    resultQuestionCount (generatePaper pool3E cfgL5E) = some 3 :=
  ⟨(c8_insufficient_supply pool3E cfgL5E).1 (by decide) (by decide)
      (by decide) (by decide),
   (c8_insufficient_supply pool3E cfgL5E).2.2⟩

/-- C1 counterexample: under the valid configuration `cfgOver`
(mcq.count = 1, split 50/50/0) both rounded targets are 1, so the hard
target is -1; JavaScript `slice(0, -1)` then selects all but one of the
hard-bucket questions, and the paper carries 4 questions where the
per-type counts sum to 1. -/
theorem c1_counterexample :
    validateConfiguration cfgOver = none ∧
    cfgOver.questionTypes.mcq.count + cfgOver.questionTypes.short.count +
      cfgOver.questionTypes.long.count = 1 ∧
    resultQuestionCount (generatePaper poolOver cfgOver) = some 4 := by
  refine ⟨by decide, by decide, by decide⟩

/-- C1 (amended): provided every type's hard target
`count - round(count*easy/100) - round(count*medium/100)` is nonnegative,
a successful paper has at most `mcq.count + short.count + long.count`
questions; and exactly that many when moreover the pool's ids are pairwise
distinct and every (type, difficulty) bucket of the topic-filtered pool
holds at least its target number of questions. -/
theorem c1_selection_count (pool : List Question) (cfg : GeneratePaperInput)
    (p : QuestionPaper) (hok : generatePaper pool cfg = .ok p)
    (hH : ∀ x ∈ typeCfgList cfg,
      0 ≤ hardCountFor x.2.count cfg.difficultyDistribution) :
    p.questions.length ≤
      cfg.questionTypes.mcq.count + cfg.questionTypes.short.count +
        cfg.questionTypes.long.count ∧
    ((pool.map (fun q => q.id)).Nodup →
      (∀ x ∈ typeCfgList cfg,
        easyCountFor x.2.count cfg.difficultyDistribution ≤
          (questionsOfTypeAndDifficulty
            (filterQuestionsByTopics pool cfg.topics) x.1 "easy").length ∧
        mediumCountFor x.2.count cfg.difficultyDistribution ≤
          (questionsOfTypeAndDifficulty
            (filterQuestionsByTopics pool cfg.topics) x.1 "medium").length ∧
        (hardCountFor x.2.count cfg.difficultyDistribution).toNat ≤
          (questionsOfTypeAndDifficulty
            (filterQuestionsByTopics pool cfg.topics) x.1 "hard").length) →
      p.questions.length =
        cfg.questionTypes.mcq.count + cfg.questionTypes.short.count +
          cfg.questionTypes.long.count) := by
  obtain ⟨_, _, _, _, hp⟩ := generatePaper_ok hok
  subst hp
  have hH1 := hH ("multiple-choice", cfg.questionTypes.mcq) (by simp [typeCfgList])
  have hH2 := hH ("short-answer", cfg.questionTypes.short) (by simp [typeCfgList])
  have hH3 := hH ("essay", cfg.questionTypes.long) (by simp [typeCfgList])
  have hlen : (createPaper cfg
      (selectQuestions (filterQuestionsByTopics pool cfg.topics) cfg)).questions.length =
      (selectQuestions (filterQuestionsByTopics pool cfg.topics) cfg).length := by
    simp [createPaper]
  constructor
  · have b1 := selForType_length_le (filterQuestionsByTopics pool cfg.topics)
      "multiple-choice" cfg.questionTypes.mcq cfg.difficultyDistribution [] hH1
    have b2 := selForType_length_le (filterQuestionsByTopics pool cfg.topics)
      "short-answer" cfg.questionTypes.short cfg.difficultyDistribution
      (usedAfterMcq (filterQuestionsByTopics pool cfg.topics) cfg) hH2
    have b3 := selForType_length_le (filterQuestionsByTopics pool cfg.topics)
      "essay" cfg.questionTypes.long cfg.difficultyDistribution
      (usedAfterShort (filterQuestionsByTopics pool cfg.topics) cfg) hH3
    rw [hlen, selectQuestions_length]
    exact Nat.add_le_add (Nat.add_le_add b1 b2) b3
  · intro hN hS
    have hNf : ((filterQuestionsByTopics pool cfg.topics).map
        (fun q => q.id)).Nodup :=
      List.Nodup.sublist
        ((filterQuestionsByTopics_sublist pool cfg.topics).map (fun q => q.id)) hN
    obtain ⟨hE1, hM1, hHs1⟩ :=
      hS ("multiple-choice", cfg.questionTypes.mcq) (by simp [typeCfgList])
    obtain ⟨hE2, hM2, hHs2⟩ :=
      hS ("short-answer", cfg.questionTypes.short) (by simp [typeCfgList])
    obtain ⟨hE3, hM3, hHs3⟩ :=
      hS ("essay", cfg.questionTypes.long) (by simp [typeCfgList])
    have e1 := selForType_length_eq (filterQuestionsByTopics pool cfg.topics)
      "multiple-choice" cfg.questionTypes.mcq cfg.difficultyDistribution []
      hH1 (fun d q hq => rfl) hE1 hM1 hHs1
    have e2 := selForType_length_eq (filterQuestionsByTopics pool cfg.topics)
      "short-answer" cfg.questionTypes.short cfg.difficultyDistribution
      (usedAfterMcq (filterQuestionsByTopics pool cfg.topics) cfg) hH2
      (fun d q hq => id_not_in_sel_ids hNf
        (fun r hr => mem_selForType hr) (by decide) hq)
      hE2 hM2 hHs2
    have e3 := selForType_length_eq (filterQuestionsByTopics pool cfg.topics)
      "essay" cfg.questionTypes.long cfg.difficultyDistribution
      (usedAfterShort (filterQuestionsByTopics pool cfg.topics) cfg) hH3
      (fun d q hq => contains_append_false
        (id_not_in_sel_ids hNf (fun r hr => mem_selForType hr) (by decide) hq)
        (id_not_in_sel_ids hNf (fun r hr => mem_selForType hr) (by decide) hq))
      hE3 hM3 hHs3
    rw [hlen, selectQuestions_length]
    rw [show mcqSelOf (filterQuestionsByTopics pool cfg.topics) cfg =
      selForType (filterQuestionsByTopics pool cfg.topics) "multiple-choice"
        cfg.questionTypes.mcq cfg.difficultyDistribution [] from rfl]
    rw [show shortSelOf (filterQuestionsByTopics pool cfg.topics) cfg =
      selForType (filterQuestionsByTopics pool cfg.topics) "short-answer"
        cfg.questionTypes.short cfg.difficultyDistribution
        (usedAfterMcq (filterQuestionsByTopics pool cfg.topics) cfg) from rfl]
    rw [show longSelOf (filterQuestionsByTopics pool cfg.topics) cfg =
      selForType (filterQuestionsByTopics pool cfg.topics) "essay"
        cfg.questionTypes.long cfg.difficultyDistribution
        (usedAfterShort (filterQuestionsByTopics pool cfg.topics) cfg) from rfl]
    rw [e1, e2, e3]

/-- C1 witness: `poolStd`/`cfgStd` fully cover the targets, and the paper
has exactly 2 + 1 + 1 questions. -/
theorem c1_witness :
    paperStd.questions.length =
      cfgStd.questionTypes.mcq.count + cfgStd.questionTypes.short.count +
        cfgStd.questionTypes.long.count :=
  (c1_selection_count poolStd cfgStd paperStd rfl (by decide)).2
    (by decide) (by decide)
